import Mathlib

/-!
# Verification of the abz.agency user-management front-end

Shallow embedding of `src/App.tsx`: the paginated user-listing flow and the
create-user flow (token acquisition, submission, 422 validation mapping,
401 retry).  Network interactions are modelled by scripts of server
responses; DOM/React side effects (alerts, console logs, HTTP requests)
are recorded as an event trace.
-/

set_option maxRecDepth 2000

/-- `User` record as declared in `App.tsx`. -/
structure User where
  id : String
  name : String
  email : String
  phone : String
  photo : String
  position : String
  position_id : Nat
  registration_timestamp : Nat
deriving Repr, DecidableEq

/-- The Formik form values (`CreateUser = Pick<User, CreateUserFields>`). -/
structure CreateUser where
  name : String
  email : String
  phone : String
  photo : String
  position_id : Nat
deriving Repr, DecidableEq

/-- Option shown in the react-select position control. -/
structure PositionOption where
  value : Nat
  label : String
deriving Repr, DecidableEq

/-- The multipart body actually posted by `reqCreateUser`:
`{...values, position_id: selectedPosition?.value, photo: fileRef.current.files[0]}`.
`position_id` and `photo` from `values` are overridden by the spread. -/
structure Payload where
  name : String
  email : String
  phone : String
  position_id : Option Nat
  photo : Option String
deriving Repr, DecidableEq

/-- Pagination links of `GetUserResponse`. -/
structure PageLinks where
  next_url : Option String
  prev_url : Option String
deriving Repr, DecidableEq

/-- Body of a successful `GET /users?page=N&count=M` response. -/
structure GetUserResponse where
  success : Bool
  total_pages : Nat
  total_users : Nat
  count : Nat
  links : PageLinks
  users : List User
deriving Repr, DecidableEq

/-- Per-field validation failures (`fails: {field: [messages]}`), as an
association list from field name to messages. -/
def Fails : Type := List (String × List String)

/-- An axios error as observed by the `catch` block of `reqCreateUser`:
either it carries an HTTP response (status and JSON body fields `success`,
`fails`) or it has no `response` at all (pure network failure). -/
inductive AxiosErr where
  | withResponse (status : Nat) (succ : Bool) (fails : Option (List (String × List String)))
  | noResponse
deriving Repr, DecidableEq

/-- Outcome of one `POST /users` attempt. -/
inductive PostResp where
  | ok (user_id : String)
  | err (e : AxiosErr)
deriving Repr, DecidableEq

/-- Outcome of the follow-up `GET /users/:id`. -/
inductive GetUserResp where
  | ok (u : User)
  | err (e : AxiosErr)
deriving Repr, DecidableEq

/-- Observable side effects of the flows. -/
inductive Event where
  | getTokenReq
  | alert (msg : String)
  | consoleLog (msg : String)
  | postUsers (token : String) (payload : Payload)
  | getUserReq (id : String)
deriving Repr, DecidableEq

/-- How `reqCreateUser` terminates: a normal return, or an exception escaping
the handler (the `catch` block dereferences `error.response`, which throws
when the error carries no response). -/
inductive ReqResult where
  | returned
  | threw
deriving Repr, DecidableEq

/-- Component state: the `useState`/`useRef` cells of `App`. -/
structure CompState where
  currPage : String
  nextPage : Option String
  users : List User
  seen : Bool
  token : Option String
  selectedPosition : Option PositionOption
  photoFile : Option String
  fieldErrors : List (String × String)
deriving Repr, DecidableEq

/-- JavaScript falsiness of the token value (`!userToken`): `null` and the
empty string are falsy. -/
def falsyToken : Option String → Bool
  | none => true
  | some s => s == ""

def TOKEN_ERROR_MESSAGE : String :=
  "Cannot authorize to create user please try again and verify your internet connection"

def EXPIRED_TOKEN_MESSAGE : String :=
  "Your token has expired and will be updated now."

/-- The multipart body built inside `axios.postForm`. -/
def mkPayload (values : CreateUser) (s : CompState) : Payload :=
  { name := values.name
    email := values.email
    phone := values.phone
    position_id := s.selectedPosition.map PositionOption.value
    photo := s.photoFile }

/-- `value.join('. ')` on the messages of one failing field. -/
def joinMsgs (msgs : List String) : String := String.intercalate ". " msgs

/-- Formik `setFieldError`: the most recent error for a field shadows older
ones (lookup takes the first hit). -/
def setFieldError (k v : String) (fe : List (String × String)) :
    List (String × String) :=
  (k, v) :: fe

/-- Current inline error of a field. -/
def getFieldError (k : String) (fe : List (String × String)) : Option String :=
  (fe.find? (fun p => p.1 == k)).map Prod.snd

/-- The 422 branch: `for (const [key, value] of Object.entries(fails))
formikHelper.setFieldError(key, value.join('. '))`. -/
def applyFails (fails : List (String × List String))
    (fe : List (String × String)) : List (String × String) :=
  fails.foldl (fun acc kv => setFieldError kv.1 (joinMsgs kv.2) acc) fe

/-- What the `catch` block decides for one error, apart from the recursive
retry itself: finish (with result), or retry after clearing the token. -/
inductive CatchOut where
  | done (s : CompState) (r : ReqResult)
  | retry (s : CompState)
deriving Repr, DecidableEq

/-- The `catch` block of `reqCreateUser` on an error `e`, up to the recursive
call: destructuring `error.response` throws on `noResponse` (the `finally`
still clears the token); a 422 with `success:false` and a truthy `fails`
object writes the per-field errors; a 401 with `success:false` alerts,
clears the token and asks for a retry. -/
def handleCatch (e : AxiosErr) (s : CompState) : CatchOut × List Event :=
  match e with
  | AxiosErr.noResponse =>
    (CatchOut.done { s with token := none } ReqResult.threw, [])
  | AxiosErr.withResponse status succ fails =>
    let s1 :=
      if status == 422 && !succ && fails.isSome then
        { s with fieldErrors := applyFails (fails.getD []) s.fieldErrors }
      else s
    if status == 401 && !succ then
      (CatchOut.retry { s1 with token := none }, [Event.alert EXPIRED_TOKEN_MESSAGE])
    else
      (CatchOut.done { s1 with token := none } ReqResult.returned, [])

/-- The opening of `reqCreateUser`: `let userToken = tokenRef.current;
if (!userToken) { try { fetch token } catch { ... return } }`.
Returns `none` when the token fetch fails (flow aborts), otherwise the
token to use, the updated state, the events emitted so far, and the
remaining token-response script. -/
def acquireToken (tokenResps : List (Option String)) (s : CompState) :
    Option (String × CompState × List Event × List (Option String)) :=
  if falsyToken s.token then
    (tokenResps.headD none).map fun t =>
      (t, { s with token := some t }, [Event.getTokenReq], tokenResps.tail)
  else
    s.token.map fun t => (t, s, [], tokenResps)

/-- `reqCreateUser` from `App.tsx`, as a function of the scripted server
responses: `postResps` for successive `POST /users` attempts, `tokenResps`
for successive `GET /token` calls (`none` = the fetch rejects; an exhausted
script also rejects), `getUserResps` for successive `GET /users/:id` calls
(an exhausted script behaves as a network failure).  Returns the final
component state, the trace of events, and how the call terminated.
The `finally` block clears the token on every exit of the `try`; on the
401 branch the function recurses on the remaining script with the same
`values`, `selectedPosition` and `photoFile`. -/
def reqCreateUser (values : CreateUser) :
    List PostResp → List (Option String) → List GetUserResp → CompState →
    CompState × List Event × ReqResult
  | postResps, tokenResps, getUserResps, s =>
    match acquireToken tokenResps s with
    | none =>
      ({ s with seen := !s.seen },
       [Event.getTokenReq, Event.alert TOKEN_ERROR_MESSAGE,
        Event.consoleLog "Cannot get token from server"],
       ReqResult.returned)
    | some (userToken, s1, ev0, tokenResps1) =>
      let evPost := ev0 ++ [Event.postUsers userToken (mkPayload values s1)]
      match postResps with
      | [] =>
        ({ s1 with token := none }, evPost, ReqResult.threw)
      | PostResp.ok uid :: _rest =>
        let evs := evPost ++ [Event.getUserReq uid]
        match getUserResps.headD (GetUserResp.err AxiosErr.noResponse) with
        | GetUserResp.ok u =>
          ({ s1 with users := u :: s1.users, seen := !s1.seen, token := none },
           evs ++ [Event.alert "Successfully created user"],
           ReqResult.returned)
        | GetUserResp.err e =>
          match handleCatch e s1 with
          | (CatchOut.done s2 r, evC) => (s2, evs ++ evC, r)
          | (CatchOut.retry s2, evC) =>
            let rec_ := reqCreateUser values _rest tokenResps1 getUserResps.tail s2
            ({ rec_.1 with token := none }, evs ++ evC ++ rec_.2.1, rec_.2.2)
      | PostResp.err e :: rest =>
        match handleCatch e s1 with
        | (CatchOut.done s2 r, evC) => (s2, evPost ++ evC, r)
        | (CatchOut.retry s2, evC) =>
          let rec_ := reqCreateUser values rest tokenResps1 getUserResps s2
          ({ rec_.1 with token := none }, evPost ++ evC ++ rec_.2.1, rec_.2.2)
termination_by postResps _ _ _ => postResps.length
decreasing_by
  all_goals simp_wf

/-- Outcome of the page-fetch request of the `useEffect` on `currPage`:
it resolves with a `GetUserResponse`, or rejects because the request was
cancelled (`axios.isCancel`), or rejects with a connectivity failure. -/
inductive PageFetchOutcome where
  | ok (resp : GetUserResponse)
  | cancelled (msg : String)
  | netError (msg : String)
deriving Repr, DecidableEq

/-- The `then`/`catch` handlers of the page-fetch `useEffect`: on success,
append the page's users and store the next cursor; on cancellation, only a
console log; on any other failure, a console log and a blocking alert,
state unchanged. -/
def handlePageFetch (o : PageFetchOutcome) (s : CompState) :
    CompState × List Event :=
  match o with
  | PageFetchOutcome.ok resp =>
    ({ s with users := s.users ++ resp.users, nextPage := resp.links.next_url }, [])
  | PageFetchOutcome.cancelled msg =>
    (s, [Event.consoleLog ("Request successfully canceled " ++ msg)])
  | PageFetchOutcome.netError msg =>
    (s, [Event.consoleLog msg, Event.alert "Check your internet connection"])

/-- Run a sequence of page-fetch outcomes through the handler, accumulating
events. -/
def runPageFetches : List PageFetchOutcome → CompState → CompState × List Event
  | [], s => (s, [])
  | o :: os, s =>
    let r := handlePageFetch o s
    let r2 := runPageFetches os r.1
    (r2.1, r.2 ++ r2.2)

/-- `onClickUserCreate`: fetch a token; on success store it and open the
popup; on failure alert and log. -/
def onClickUserCreate (tokenResp : Option String) (s : CompState) :
    CompState × List Event :=
  match tokenResp with
  | some t =>
    ({ s with token := some t, seen := !s.seen }, [Event.getTokenReq])
  | none =>
    (s, [Event.getTokenReq, Event.alert TOKEN_ERROR_MESSAGE,
         Event.consoleLog "Cannot get token from server"])

/-- One operator- or network-driven operation of a session. -/
inductive SessionOp where
  | pageFetch (o : PageFetchOutcome)
  | clickCreate (tokenResp : Option String)
  | selectPosition (p : Option PositionOption)
  | chooseFile (f : Option String)
  | showMore
  | submitCreate (values : CreateUser) (postResps : List PostResp)
      (tokenResps : List (Option String)) (getUserResps : List GetUserResp)

/-- The session-level step function: every state update of `App` is one of
these transitions.  `showMore` sets `currPage` to `nextPage` (the button is
only rendered when `nextPage` is non-null). -/
def step (op : SessionOp) (s : CompState) : CompState × List Event :=
  match op with
  | SessionOp.pageFetch o => handlePageFetch o s
  | SessionOp.clickCreate tokenResp => onClickUserCreate tokenResp s
  | SessionOp.selectPosition p => ({ s with selectedPosition := p }, [])
  | SessionOp.chooseFile f => ({ s with photoFile := f }, [])
  | SessionOp.showMore =>
    match s.nextPage with
    | some url => ({ s with currPage := url }, [])
    | none => (s, [])
  | SessionOp.submitCreate values postResps tokenResps getUserResps =>
    let r := reqCreateUser values postResps tokenResps getUserResps s
    (r.1, r.2.1)

/-- Count `POST /users` requests in an event trace. -/
def isPostEvent : Event → Bool
  | Event.postUsers _ _ => true
  | _ => false

def countPosts (evs : List Event) : Nat := evs.countP isPostEvent

/-- A 401 unauthorized error response with `success:false`, as the service
sends on an expired token. -/
def err401 : PostResp := PostResp.err (AxiosErr.withResponse 401 false none)

/-- Concrete form values used to instantiate theorems on sample inputs. -/
def sampleValues : CreateUser :=
  { name := "John Doe", email := "john@example.com", phone := "+380501234567",
    photo := "", position_id := 0 }

/-- A concrete user record as returned by `GET /users/:id`. -/
def sampleUser : User :=
  { id := "42", name := "John Doe", email := "john@example.com",
    phone := "+380501234567", photo := "http://x/42.jpg", position := "QA",
    position_id := 3, registration_timestamp := 100 }

/-- A second concrete user record, distinct from `sampleUser`. -/
def sampleUser2 : User :=
  { id := "43", name := "Jane Roe", email := "jane@example.com",
    phone := "+380507654321", photo := "http://x/43.jpg", position := "PM",
    position_id := 4, registration_timestamp := 101 }

/-- A concrete component state with the create form open and a token held. -/
def sampleState : CompState :=
  { currPage := "page1", nextPage := none, users := [], seen := true,
    token := some "tok1", selectedPosition := some { value := 3, label := "QA" },
    photoFile := some "photo.jpg", fieldErrors := [] }

/-- A concrete first page of users. -/
def samplePage1 : GetUserResponse :=
  { success := true, total_pages := 2, total_users := 2, count := 1,
    links := { next_url := some "page2", prev_url := none },
    users := [sampleUser] }

/-- A concrete second page of users, disjoint from the first. -/
def samplePage2 : GetUserResponse :=
  { success := true, total_pages := 2, total_users := 2, count := 1,
    links := { next_url := none, prev_url := some "page1" },
    users := [sampleUser2] }

/-! ## Helper lemmas -/

theorem falsyToken_eq_true {o : Option String} :
    falsyToken o = true ↔ o = none ∨ o = some "" := by
  cases o with
  | none => simp [falsyToken]
  | some s => simp [falsyToken]

theorem acquireToken_eq_none {tokenResps : List (Option String)} {s : CompState}
    (h : acquireToken tokenResps s = none) :
    s.token = none ∨ s.token = some "" := by
  by_cases hf : falsyToken s.token
  · exact falsyToken_eq_true.mp hf
  · exfalso
    rcases hs : s.token with _ | t0
    · exact hf (by simp [falsyToken, hs])
    · rw [acquireToken, if_neg hf, hs] at h
      simp at h

theorem acquireToken_eq_some {tokenResps : List (Option String)} {s : CompState}
    {t : String} {s1 : CompState} {ev0 : List Event} {tr1 : List (Option String)}
    (h : acquireToken tokenResps s = some (t, s1, ev0, tr1)) :
    s1 = { s with token := some t } ∧ (ev0 = [] ∨ ev0 = [Event.getTokenReq]) := by
  by_cases hf : falsyToken s.token
  · rw [acquireToken, if_pos hf] at h
    rcases htok : tokenResps.headD none with _ | t0
    · rw [htok] at h
      simp at h
    · rw [htok] at h
      simp only [Option.map_some', Option.some_inj, Prod.mk.injEq] at h
      obtain ⟨h1, h2, h3, h4⟩ := h
      subst h1
      exact ⟨h2.symm, Or.inr h3.symm⟩
  · rcases hs : s.token with _ | t0
    · exact absurd (by simp [falsyToken, hs]) hf
    · rw [acquireToken, if_neg hf, hs] at h
      simp only [Option.map_some', Option.some_inj, Prod.mk.injEq] at h
      obtain ⟨h1, h2, h3, h4⟩ := h
      subst h1
      refine ⟨?_, Or.inl h3.symm⟩
      rw [← h2]
      cases s
      simp_all


theorem handleCatch_done {e : AxiosErr} {s s2 : CompState} {r : ReqResult}
    {evC : List Event} (h : handleCatch e s = (CatchOut.done s2 r, evC)) :
    s2.token = none ∧ s2.users = s.users ∧ s2.seen = s.seen ∧
      s2.selectedPosition = s.selectedPosition ∧ s2.photoFile = s.photoFile ∧
      evC = [] := by
  cases e with
  | noResponse =>
    simp only [handleCatch, Prod.mk.injEq, CatchOut.done.injEq] at h
    obtain ⟨⟨h1, _⟩, h2⟩ := h
    subst h1
    simp_all
  | withResponse status succ fails =>
    simp only [handleCatch] at h
    split at h
    · simp at h
    · split at h
      · simp only [Prod.mk.injEq, CatchOut.done.injEq] at h
        obtain ⟨⟨h1, _⟩, h2⟩ := h
        subst h1
        simp_all
      · simp only [Prod.mk.injEq, CatchOut.done.injEq] at h
        obtain ⟨⟨h1, _⟩, h2⟩ := h
        subst h1
        simp_all

theorem handleCatch_retry {e : AxiosErr} {s s2 : CompState}
    {evC : List Event} (h : handleCatch e s = (CatchOut.retry s2, evC)) :
    s2.token = none ∧ s2.users = s.users ∧ s2.seen = s.seen ∧
      s2.selectedPosition = s.selectedPosition ∧ s2.photoFile = s.photoFile ∧
      evC = [Event.alert EXPIRED_TOKEN_MESSAGE] := by
  cases e with
  | noResponse => simp [handleCatch] at h
  | withResponse status succ fails =>
    simp only [handleCatch] at h
    split at h
    · split at h
      · simp only [Prod.mk.injEq, CatchOut.retry.injEq] at h
        obtain ⟨h1, h2⟩ := h
        subst h1
        simp_all
      · simp only [Prod.mk.injEq, CatchOut.retry.injEq] at h
        obtain ⟨h1, h2⟩ := h
        subst h1
        simp_all
    · simp at h

theorem mkPayload_token (values : CreateUser) (s : CompState) (x : Option String) :
    mkPayload values { s with token := x } = mkPayload values s := rfl

theorem mkPayload_acquire {values : CreateUser}
    {tokenResps : List (Option String)} {s : CompState}
    {t : String} {s1 : CompState} {ev0 : List Event} {tr1 : List (Option String)}
    (hacq : acquireToken tokenResps s = some (t, s1, ev0, tr1)) :
    mkPayload values s1 = mkPayload values s := by
  rw [(acquireToken_eq_some hacq).1]
  rfl

theorem reqCreateUser_token_clear (values : CreateUser)
    (postResps : List PostResp) (tokenResps : List (Option String))
    (getUserResps : List GetUserResp) (s : CompState)
    (h : s.token ≠ some "") :
    (reqCreateUser values postResps tokenResps getUserResps s).1.token = none := by
  rw [reqCreateUser]
  cases hacq : acquireToken tokenResps s with
  | none =>
    rcases acquireToken_eq_none hacq with h0 | h0
    · simpa using h0
    · exact absurd h0 h
  | some q =>
    obtain ⟨t, s1, ev0, tr1⟩ := q
    cases postResps with
    | nil => simp
    | cons p rest =>
      cases p with
      | ok uid =>
        cases hg : getUserResps.headD (GetUserResp.err AxiosErr.noResponse) with
        | ok u => simp [hg]
        | err e =>
          rcases hhc : handleCatch e s1 with ⟨co, evC⟩
          cases co with
          | done s2 r =>
            simp [hg, hhc]
            exact (handleCatch_done hhc).1
          | retry s2 => simp [hg, hhc]
      | err e =>
        rcases hhc : handleCatch e s1 with ⟨co, evC⟩
        cases co with
        | done s2 r =>
          simp [hhc]
          exact (handleCatch_done hhc).1
        | retry s2 => simp [hhc]

theorem reqCreateUser_users (values : CreateUser) :
    ∀ (postResps : List PostResp) (tokenResps : List (Option String))
      (getUserResps : List GetUserResp) (s : CompState),
      (reqCreateUser values postResps tokenResps getUserResps s).1.users = s.users ∨
        ∃ u, (reqCreateUser values postResps tokenResps getUserResps s).1.users
              = u :: s.users := by
  intro postResps
  induction postResps with
  | nil =>
    intro tokenResps getUserResps s
    rw [reqCreateUser]
    cases hacq : acquireToken tokenResps s with
    | none => left; simp
    | some q =>
      obtain ⟨t, s1, ev0, tr1⟩ := q
      left
      simp [(acquireToken_eq_some hacq).1]
  | cons p rest ih =>
    intro tokenResps getUserResps s
    rw [reqCreateUser]
    cases hacq : acquireToken tokenResps s with
    | none => left; simp
    | some q =>
      obtain ⟨t, s1, ev0, tr1⟩ := q
      obtain ⟨hs1, -⟩ := acquireToken_eq_some hacq
      cases p with
      | ok uid =>
        cases hg : getUserResps.headD (GetUserResp.err AxiosErr.noResponse) with
        | ok u =>
          right
          exact ⟨u, by simp [hg, hs1]⟩
        | err e =>
          rcases hhc : handleCatch e s1 with ⟨co, evC⟩
          cases co with
          | done s2 r =>
            left
            have h2 := (handleCatch_done hhc).2.1
            simp only [hg, hhc]
            simp [h2, hs1]
          | retry s2 =>
            have hus : s2.users = s.users := by
              rw [(handleCatch_retry hhc).2.1, hs1]
            rcases ih tr1 getUserResps.tail s2 with h0 | ⟨u, h0⟩
            · left
              simp only [hg, hhc]
              simp [h0, hus]
            · right
              exact ⟨u, by simp only [hg, hhc]; simp [h0, hus]⟩
      | err e =>
        rcases hhc : handleCatch e s1 with ⟨co, evC⟩
        cases co with
        | done s2 r =>
          left
          have h2 := (handleCatch_done hhc).2.1
          simp only [hhc]
          simp [h2, hs1]
        | retry s2 =>
          have hus : s2.users = s.users := by
            rw [(handleCatch_retry hhc).2.1, hs1]
          rcases ih tr1 getUserResps s2 with h0 | ⟨u, h0⟩
          · left
            simp only [hhc]
            simp [h0, hus]
          · right
            exact ⟨u, by simp only [hhc]; simp [h0, hus]⟩

theorem reqCreateUser_events_head (values : CreateUser)
    (postResps : List PostResp) (tokenResps : List (Option String))
    (getUserResps : List GetUserResp) (s : CompState)
    {t : String} {s1 : CompState} {ev0 : List Event} {tr1 : List (Option String)}
    (hacq : acquireToken tokenResps s = some (t, s1, ev0, tr1)) :
    ∃ evs, (reqCreateUser values postResps tokenResps getUserResps s).2.1 =
      ev0 ++ Event.postUsers t (mkPayload values s1) :: evs := by
  rw [reqCreateUser, hacq]
  cases postResps with
  | nil => exact ⟨[], by simp⟩
  | cons p rest =>
    cases p with
    | ok uid =>
      cases hg : getUserResps.headD (GetUserResp.err AxiosErr.noResponse) with
      | ok u =>
        exact ⟨[Event.getUserReq uid, Event.alert "Successfully created user"],
          by simp [hg]⟩
      | err e =>
        rcases hhc : handleCatch e s1 with ⟨co, evC⟩
        cases co with
        | done s2 r =>
          exact ⟨Event.getUserReq uid :: evC, by simp [hg, hhc]⟩
        | retry s2 =>
          exact ⟨Event.getUserReq uid :: evC ++
            (reqCreateUser values rest tr1 getUserResps.tail s2).2.1,
            by simp [hg, hhc]⟩
    | err e =>
      rcases hhc : handleCatch e s1 with ⟨co, evC⟩
      cases co with
      | done s2 r =>
        exact ⟨evC, by simp [hhc]⟩
      | retry s2 =>
        exact ⟨evC ++ (reqCreateUser values rest tr1 getUserResps s2).2.1,
          by simp [hhc]⟩

theorem getFieldError_setFieldError_self (k v : String)
    (fe : List (String × String)) :
    getFieldError k (setFieldError k v fe) = some v := by
  simp [getFieldError, setFieldError, List.find?]

theorem getFieldError_setFieldError_other (k k0 v : String)
    (fe : List (String × String)) (h : k0 ≠ k) :
    getFieldError k (setFieldError k0 v fe) = getFieldError k fe := by
  have hb : (k0 == k) = false := by simp [h]
  simp [getFieldError, setFieldError, List.find?, hb]

theorem getFieldError_applyFails_not_mem
    (fails : List (String × List String)) (k : String) :
    ∀ (fe : List (String × String)), k ∉ fails.map Prod.fst →
      getFieldError k (applyFails fails fe) = getFieldError k fe := by
  induction fails with
  | nil => intro fe _; rfl
  | cons kv rest ih =>
    intro fe hk
    simp only [List.map_cons, List.mem_cons, not_or] at hk
    rw [applyFails, List.foldl_cons]
    rw [show (rest.foldl (fun acc kv => setFieldError kv.1 (joinMsgs kv.2) acc)
          (setFieldError kv.1 (joinMsgs kv.2) fe))
        = applyFails rest (setFieldError kv.1 (joinMsgs kv.2) fe) from rfl]
    rw [ih _ hk.2]
    exact getFieldError_setFieldError_other k kv.1 (joinMsgs kv.2) fe (Ne.symm hk.1)

theorem getFieldError_applyFails
    (fails : List (String × List String)) (k : String) (msgs : List String) :
    ∀ (fe : List (String × String)), (k, msgs) ∈ fails →
      (fails.map Prod.fst).Nodup →
      getFieldError k (applyFails fails fe) = some (joinMsgs msgs) := by
  induction fails with
  | nil => intro fe h _; simp at h
  | cons kv rest ih =>
    intro fe hmem hnd
    simp only [List.map_cons, List.nodup_cons] at hnd
    rw [applyFails, List.foldl_cons]
    rw [show (rest.foldl (fun acc kv => setFieldError kv.1 (joinMsgs kv.2) acc)
          (setFieldError kv.1 (joinMsgs kv.2) fe))
        = applyFails rest (setFieldError kv.1 (joinMsgs kv.2) fe) from rfl]
    rcases List.mem_cons.mp hmem with heq | hrest
    · have hk : kv.1 = k := by rw [← heq]
      have hmsgs : kv.2 = msgs := by rw [← heq]
      subst hk
      have hnot : kv.1 ∉ rest.map Prod.fst := hnd.1
      rw [getFieldError_applyFails_not_mem rest kv.1 _ hnot, hmsgs]
      exact getFieldError_setFieldError_self kv.1 (joinMsgs msgs) fe
    · exact ih _ hrest hnd.2

theorem runPageFetches_ok_users (pages : List GetUserResponse) :
    ∀ s : CompState,
      (runPageFetches (pages.map PageFetchOutcome.ok) s).1.users
        = s.users ++ (pages.map GetUserResponse.users).flatten := by
  induction pages with
  | nil => intro s; simp [runPageFetches]
  | cons p rest ih =>
    intro s
    simp only [List.map_cons, runPageFetches, handlePageFetch]
    rw [ih]
    simp

theorem reqCreateUser_retry_count (values : CreateUser) (uid : String)
    (u : User) (tok : String) :
    ∀ (n : Nat) (gr : List GetUserResp) (s : CompState),
      falsyToken s.token = true →
      countPosts ((reqCreateUser values
          (List.replicate n err401 ++ [PostResp.ok uid])
          (List.replicate (n + 1) (some tok))
          (GetUserResp.ok u :: gr) s).2.1) = n + 1 := by
  intro n
  induction n with
  | zero =>
    intro gr s hf
    have hacq : acquireToken (List.replicate (0 + 1) (some tok)) s
        = some (tok, { s with token := some tok }, [Event.getTokenReq], []) := by
      simp [acquireToken, hf, List.replicate]
    rw [show List.replicate 0 err401 ++ [PostResp.ok uid] = [PostResp.ok uid] by simp]
    rw [reqCreateUser, hacq]
    simp [countPosts, List.countP_cons, isPostEvent]
  | succ n ih =>
    intro gr s hf
    have hrep : List.replicate (n + 1) err401 ++ [PostResp.ok uid]
        = err401 :: (List.replicate n err401 ++ [PostResp.ok uid]) := by
      simp [List.replicate_succ]
    rw [hrep]
    have hacq : acquireToken (List.replicate (n + 1 + 1) (some tok)) s
        = some (tok, { s with token := some tok }, [Event.getTokenReq],
                List.replicate (n + 1) (some tok)) := by
      simp [acquireToken, hf, List.replicate_succ]
    rw [reqCreateUser, hacq]
    have hhc : handleCatch (AxiosErr.withResponse 401 false none)
        { s with token := some tok }
        = (CatchOut.retry { s with token := none },
           [Event.alert EXPIRED_TOKEN_MESSAGE]) := by
      simp [handleCatch]
    have hrec := ih gr { s with token := none } (by simp [falsyToken])
    simp only [err401] at hrec
    simp only [err401, hhc]
    simp only [countPosts, List.countP_append, List.countP_cons, isPostEvent] at hrec ⊢
    simp at hrec ⊢
    omega

/-! ## Claim theorems -/

/-- C2: after every create-user submission attempt terminates — success,
validation failure, or any other failure, including thrown handlers and
arbitrarily many 401 retries — the held authorization token is `none`, so
the next create action must fetch a fresh token.  (The hypothesis rules out
the degenerate held token `some ""`, which JavaScript already treats as
absent: the code then refetches rather than reuses it.) -/
theorem c2_token_cleared_after_attempt (values : CreateUser)
    (postResps : List PostResp) (tokenResps : List (Option String))
    (getUserResps : List GetUserResp) (s : CompState)
    (h : s.token ≠ some "") :
    (reqCreateUser values postResps tokenResps getUserResps s).1.token = none :=
  reqCreateUser_token_clear values postResps tokenResps getUserResps s h

/-- Witness for C2: a concrete failed submission (401 with an exhausted
token script) ends with the token cleared. -/
theorem c2_token_cleared_after_attempt_witness :
    sampleState.token ≠ some "" ∧
      (reqCreateUser sampleValues [err401] [] [] sampleState).1.token = none :=
  ⟨by decide,
   c2_token_cleared_after_attempt sampleValues [err401] [] [] sampleState
     (by decide)⟩

/-- C6: a page fetch that rejects as cancelled leaves the component state —
in particular the user list — untouched, and never emits the user-visible
connectivity alert. -/
theorem c6_cancelled_fetch_never_applied (msg : String) (s : CompState) :
    (handlePageFetch (PageFetchOutcome.cancelled msg) s).1 = s ∧
      ∀ m, Event.alert m ∉ (handlePageFetch (PageFetchOutcome.cancelled msg) s).2 := by
  constructor
  · rfl
  · intro m
    simp [handlePageFetch]

/-- C9: every state transition of the session either leaves the user list
unchanged, appends fetched page users at the end, or prepends one created
user at the front; in particular the old list is always a sublist of the
new one — nothing is removed, reordered or mutated in place. -/
theorem c9_list_append_prepend_only (op : SessionOp) (s : CompState) :
    ((step op s).1.users = s.users ∨
      (∃ us, (step op s).1.users = s.users ++ us) ∨
      (∃ u, (step op s).1.users = u :: s.users)) ∧
    s.users.Sublist (step op s).1.users := by
  have hmain : (step op s).1.users = s.users ∨
      (∃ us, (step op s).1.users = s.users ++ us) ∨
      (∃ u, (step op s).1.users = u :: s.users) := by
    cases op with
    | pageFetch o =>
      cases o with
      | ok resp =>
        right; left
        exact ⟨resp.users, by simp [step, handlePageFetch]⟩
      | cancelled msg => left; simp [step, handlePageFetch]
      | netError msg => left; simp [step, handlePageFetch]
    | clickCreate tokenResp =>
      cases tokenResp with
      | none => left; simp [step, onClickUserCreate]
      | some t => left; simp [step, onClickUserCreate]
    | selectPosition p => left; simp [step]
    | chooseFile f => left; simp [step]
    | showMore =>
      cases hnp : s.nextPage with
      | none => left; simp [step, hnp]
      | some url => left; simp [step, hnp]
    | submitCreate values postResps tokenResps getUserResps =>
      rcases reqCreateUser_users values postResps tokenResps getUserResps s with
        h0 | ⟨u, h0⟩
      · left; simpa [step] using h0
      · right; right; exact ⟨u, by simpa [step] using h0⟩
  refine ⟨hmain, ?_⟩
  rcases hmain with h0 | ⟨us, h0⟩ | ⟨u, h0⟩
  · rw [h0]
  · rw [h0]; exact List.sublist_append_left s.users us
  · rw [h0]; exact (List.Sublist.refl s.users).cons u

/-- C1 counterexample: the claim says the 401-retry path never loops more
than once per operator submission — a second consecutive unauthorized
response is not retried again.  But the 401 branch of the `catch` recurses
unconditionally: with two consecutive 401 responses followed by an accepted
one, the flow performs three POST attempts, i.e. two automatic
re-submissions — the second consecutive 401 was retried again. -/
theorem c1_second_401_retried_again :
    countPosts ((reqCreateUser sampleValues
        [err401, err401, PostResp.ok "42"]
        [some "tok2", some "tok3"]
        [GetUserResp.ok sampleUser] sampleState).2.1) = 3 := by
  simp [reqCreateUser, acquireToken, handleCatch, falsyToken, err401,
    sampleValues, sampleUser, sampleState, mkPayload]
  decide

/-- C1 amended: each unauthorized response triggers an automatic
re-submission, and consecutive unauthorized responses keep being retried
without bound: with a held (non-falsy) token and `n` consecutive 401
responses followed by an accepted one, the flow performs `n + 1` POST
attempts (`n` automatic re-submissions), for every `n`. -/
theorem c1_amended_unbounded_retry (n : Nat) (values : CreateUser)
    (uid : String) (u : User) (gr : List GetUserResp) (tok : String)
    (s : CompState) (hf : falsyToken s.token = false) :
    countPosts ((reqCreateUser values
        (List.replicate n err401 ++ [PostResp.ok uid])
        (List.replicate n (some tok))
        (GetUserResp.ok u :: gr) s).2.1) = n + 1 := by
  rcases hs : s.token with _ | t
  · rw [hs] at hf
    simp [falsyToken] at hf
  · have ht : (t == "") = false := by
      rw [hs] at hf
      simpa [falsyToken] using hf
    cases n with
    | zero =>
      have hacq : acquireToken (List.replicate 0 (some tok)) s
          = some (t, s, [], List.replicate 0 (some tok)) := by
        simp [acquireToken, falsyToken, hs, ht]
      rw [show List.replicate 0 err401 ++ [PostResp.ok uid]
            = [PostResp.ok uid] by simp]
      rw [reqCreateUser, hacq]
      simp [countPosts, List.countP_cons, isPostEvent]
    | succ n =>
      have hrep : List.replicate (n + 1) err401 ++ [PostResp.ok uid]
          = err401 :: (List.replicate n err401 ++ [PostResp.ok uid]) := by
        simp [List.replicate_succ]
      rw [hrep]
      have hacq : acquireToken (List.replicate (n + 1) (some tok)) s
          = some (t, s, [], List.replicate (n + 1) (some tok)) := by
        simp [acquireToken, falsyToken, hs, ht]
      rw [reqCreateUser, hacq]
      have hhc : handleCatch (AxiosErr.withResponse 401 false none) s
          = (CatchOut.retry { s with token := none },
             [Event.alert EXPIRED_TOKEN_MESSAGE]) := by
        simp [handleCatch]
      have hrec := reqCreateUser_retry_count values uid u tok n gr
        { s with token := none } (by simp [falsyToken])
      simp only [err401] at hrec
      simp only [err401, hhc]
      simp only [countPosts, List.countP_append, List.countP_cons,
        isPostEvent] at hrec ⊢
      simp at hrec ⊢
      omega

/-- Witness for the amended C1 at `n = 2`: two consecutive 401s produce
three POST attempts. -/
theorem c1_amended_unbounded_retry_witness :
    falsyToken sampleState.token = false ∧
      countPosts ((reqCreateUser sampleValues
          (List.replicate 2 err401 ++ [PostResp.ok "42"])
          (List.replicate 2 (some "tok2"))
          (GetUserResp.ok sampleUser :: []) sampleState).2.1) = 2 + 1 :=
  ⟨by decide,
   c1_amended_unbounded_retry 2 sampleValues "42" sampleUser [] "tok2"
     sampleState (by decide)⟩

/-- C3: when the POST is accepted (the service returns a `user_id`) and the
follow-up `GET /users/:id` returns the record `u`, the user list afterwards
is exactly `u` prepended to the previous list, the form (open while
submitting) is closed, and the flow fetched precisely that user id. -/
theorem c3_success_prepends_and_closes (values : CreateUser) (uid : String)
    (u : User) (pr : List PostResp) (tokenResps : List (Option String))
    (gr : List GetUserResp) (s : CompState) (hseen : s.seen = true)
    (hacq : (acquireToken tokenResps s).isSome) :
    (reqCreateUser values (PostResp.ok uid :: pr) tokenResps
        (GetUserResp.ok u :: gr) s).1.users = u :: s.users ∧
    (reqCreateUser values (PostResp.ok uid :: pr) tokenResps
        (GetUserResp.ok u :: gr) s).1.seen = false ∧
    Event.getUserReq uid ∈ (reqCreateUser values (PostResp.ok uid :: pr)
        tokenResps (GetUserResp.ok u :: gr) s).2.1 ∧
    (reqCreateUser values (PostResp.ok uid :: pr) tokenResps
        (GetUserResp.ok u :: gr) s).2.2 = ReqResult.returned := by
  rcases hq : acquireToken tokenResps s with _ | ⟨t, s1, ev0, tr1⟩
  · rw [hq] at hacq
    simp at hacq
  · obtain ⟨hs1, -⟩ := acquireToken_eq_some hq
    rw [reqCreateUser, hq]
    simp [hs1, hseen]

/-- Witness for C3 at concrete inputs: one accepted submission prepends the
fetched record. -/
theorem c3_success_prepends_and_closes_witness :
    sampleState.seen = true ∧ (acquireToken [] sampleState).isSome = true ∧
      (reqCreateUser sampleValues [PostResp.ok "42"] []
          [GetUserResp.ok sampleUser] sampleState).1.users
        = sampleUser :: sampleState.users :=
  ⟨rfl, by decide,
   (c3_success_prepends_and_closes sampleValues "42" sampleUser [] []
      [] sampleState rfl (by decide)).1⟩

/-- C4 counterexample: the claim says the token re-acquisition after a 401
is silent, with no operator-visible notification.  But the 401 branch calls
`alert('Your token has expired and will be updated now.')` before retrying:
on a concrete 401-then-success run the event trace contains that alert. -/
theorem c4_retry_not_silent :
    Event.alert EXPIRED_TOKEN_MESSAGE ∈
      (reqCreateUser sampleValues [err401, PostResp.ok "42"] [some "tok2"]
        [GetUserResp.ok sampleUser] sampleState).2.1 := by
  simp [reqCreateUser, acquireToken, handleCatch, falsyToken, err401,
    sampleValues, sampleUser, sampleState, mkPayload]

/-- C4 amended: on an unauthorized response the flow discards the token,
notifies the operator via an alert that the token expired, fetches a new
token, and re-submits a payload identical to the original one — same form
values, same selected position, same photo attachment — with the new token
attached and no operator re-entry; the token is cleared at the end. -/
theorem c4_amended_retry_identical_payload (values : CreateUser)
    (t t2 : String) (rest : List PostResp) (tr : List (Option String))
    (gr : List GetUserResp) (s : CompState)
    (hs : s.token = some t) (ht : t ≠ "") :
    ((reqCreateUser values (err401 :: rest) (some t2 :: tr) gr s).2.1).take 4
      = [Event.postUsers t (mkPayload values s),
         Event.alert EXPIRED_TOKEN_MESSAGE,
         Event.getTokenReq,
         Event.postUsers t2 (mkPayload values s)] ∧
    (reqCreateUser values (err401 :: rest) (some t2 :: tr) gr s).1.token
      = none := by
  have htb : (t == "") = false := by simpa using ht
  constructor
  · have hacq : acquireToken (some t2 :: tr) s
        = some (t, s, [], some t2 :: tr) := by
      simp [acquireToken, falsyToken, hs, htb]
    rw [reqCreateUser, hacq]
    have hhc : handleCatch (AxiosErr.withResponse 401 false none) s
        = (CatchOut.retry { s with token := none },
           [Event.alert EXPIRED_TOKEN_MESSAGE]) := by
      simp [handleCatch]
    simp only [err401, hhc]
    have hacq2 : acquireToken (some t2 :: tr) { s with token := none }
        = some (t2, { s with token := some t2 }, [Event.getTokenReq], tr) := by
      simp [acquireToken, falsyToken]
    obtain ⟨evs, hevs⟩ := reqCreateUser_events_head values rest (some t2 :: tr)
      gr { s with token := none } hacq2
    rw [hevs]
    simp [mkPayload]
  · exact reqCreateUser_token_clear values (err401 :: rest) (some t2 :: tr)
      gr s (by simp [hs, ht])

/-- Witness for the amended C4 at concrete inputs: the retry's POST carries
the same payload as the original POST and the freshly fetched token. -/
theorem c4_amended_retry_identical_payload_witness :
    sampleState.token = some "tok1" ∧ "tok1" ≠ "" ∧
      ((reqCreateUser sampleValues (err401 :: [PostResp.ok "42"])
          (some "tok2" :: []) [GetUserResp.ok sampleUser]
          sampleState).2.1).take 4
        = [Event.postUsers "tok1" (mkPayload sampleValues sampleState),
           Event.alert EXPIRED_TOKEN_MESSAGE,
           Event.getTokenReq,
           Event.postUsers "tok2" (mkPayload sampleValues sampleState)] :=
  ⟨rfl, by decide,
   (c4_amended_retry_identical_payload sampleValues "tok1" "tok2"
      [PostResp.ok "42"] [] [GetUserResp.ok sampleUser] sampleState rfl
      (by decide)).1⟩

/-- C5: on a 422 response with `success:false` and a `fails` map whose field
names are distinct, every failing field is assigned exactly the
server-provided messages for it (joined as the code does with `'. '`) as its
inline error, the user list and the form visibility are unchanged, the token
is discarded, and the handler returns normally. -/
theorem c5_validation_errors_mapped (values : CreateUser)
    (fails : List (String × List String)) (pr : List PostResp)
    (tokenResps : List (Option String)) (gr : List GetUserResp)
    (s : CompState) (hnd : (fails.map Prod.fst).Nodup)
    (hacq : (acquireToken tokenResps s).isSome) :
    (reqCreateUser values
        (PostResp.err (AxiosErr.withResponse 422 false (some fails)) :: pr)
        tokenResps gr s).1.users = s.users ∧
    (reqCreateUser values
        (PostResp.err (AxiosErr.withResponse 422 false (some fails)) :: pr)
        tokenResps gr s).1.seen = s.seen ∧
    (reqCreateUser values
        (PostResp.err (AxiosErr.withResponse 422 false (some fails)) :: pr)
        tokenResps gr s).1.token = none ∧
    (∀ kv ∈ fails,
      getFieldError kv.1 (reqCreateUser values
          (PostResp.err (AxiosErr.withResponse 422 false (some fails)) :: pr)
          tokenResps gr s).1.fieldErrors = some (joinMsgs kv.2)) ∧
    (reqCreateUser values
        (PostResp.err (AxiosErr.withResponse 422 false (some fails)) :: pr)
        tokenResps gr s).2.2 = ReqResult.returned := by
  rcases hq : acquireToken tokenResps s with _ | ⟨t, s1, ev0, tr1⟩
  · rw [hq] at hacq
    simp at hacq
  · obtain ⟨hs1, -⟩ := acquireToken_eq_some hq
    rw [reqCreateUser, hq]
    have hhc : handleCatch (AxiosErr.withResponse 422 false (some fails)) s1
        = (CatchOut.done
            { s1 with
                token := none
                fieldErrors := applyFails fails s1.fieldErrors }
            ReqResult.returned, []) := by
      simp [handleCatch]
    simp only [hhc]
    refine ⟨by simp [hs1], by simp [hs1], by simp, ?_, by simp⟩
    intro kv hkv
    have hmem : (kv.1, kv.2) ∈ fails := by simpa using hkv
    have hgoal := getFieldError_applyFails fails kv.1 kv.2 s1.fieldErrors
      hmem hnd
    simpa using hgoal

/-- Witness for C5: a concrete 422 with two messages on `email` yields the
joined inline error and leaves the list unchanged. -/
theorem c5_validation_errors_mapped_witness :
    (([("email", ["required", "invalid"])].map Prod.fst).Nodup) ∧
      (acquireToken [] sampleState).isSome = true ∧
      getFieldError "email"
        ((reqCreateUser sampleValues
            [PostResp.err (AxiosErr.withResponse 422 false
              (some [("email", ["required", "invalid"])]))]
            [] [] sampleState).1.fieldErrors)
        = some (joinMsgs ["required", "invalid"]) :=
  ⟨by decide, by decide,
   (c5_validation_errors_mapped sampleValues
      [("email", ["required", "invalid"])] [] [] [] sampleState
      (by decide) (by decide)).2.2.2.1
     ("email", ["required", "invalid"]) (by simp)⟩

/-- C8: the creation request carries the held token when one is present
(first event of the submission is the POST with that token); when no token
is held, a token fetch is performed first and the freshly fetched token is
the one attached to the POST. -/
theorem c8_token_attached (values : CreateUser) (pr : List PostResp)
    (tr : List (Option String)) (gr : List GetUserResp) (s : CompState) :
    (∀ t, s.token = some t → t ≠ "" →
      ((reqCreateUser values pr tr gr s).2.1).take 1
        = [Event.postUsers t (mkPayload values s)]) ∧
    (∀ t2 tr2, s.token = none → tr = some t2 :: tr2 →
      ((reqCreateUser values pr tr gr s).2.1).take 2
        = [Event.getTokenReq, Event.postUsers t2 (mkPayload values s)]) := by
  constructor
  · intro t hs ht
    have htb : (t == "") = false := by simpa using ht
    have hacq : acquireToken tr s = some (t, s, [], tr) := by
      simp [acquireToken, falsyToken, hs, htb]
    obtain ⟨evs, hevs⟩ := reqCreateUser_events_head values pr tr gr s hacq
    rw [hevs]
    simp
  · intro t2 tr2 hs htr
    subst htr
    have hacq : acquireToken (some t2 :: tr2) s
        = some (t2, { s with token := some t2 }, [Event.getTokenReq], tr2) := by
      simp [acquireToken, falsyToken, hs]
    obtain ⟨evs, hevs⟩ := reqCreateUser_events_head values pr (some t2 :: tr2)
      gr s hacq
    rw [hevs]
    simp [mkPayload]

/-- Witness for C8: with a held token the POST carries it; with no token a
fetch happens first and the POST carries the fetched token. -/
theorem c8_token_attached_witness :
    (sampleState.token = some "tok1" ∧
      ((reqCreateUser sampleValues [PostResp.ok "42"] []
          [GetUserResp.ok sampleUser] sampleState).2.1).take 1
        = [Event.postUsers "tok1" (mkPayload sampleValues sampleState)]) ∧
    (((reqCreateUser sampleValues [PostResp.ok "42"] [some "tokN"]
          [GetUserResp.ok sampleUser]
          { sampleState with token := none }).2.1).take 2
        = [Event.getTokenReq,
           Event.postUsers "tokN"
             (mkPayload sampleValues { sampleState with token := none })]) :=
  ⟨⟨rfl,
    (c8_token_attached sampleValues [PostResp.ok "42"] []
        [GetUserResp.ok sampleUser] sampleState).1 "tok1" rfl (by decide)⟩,
   (c8_token_attached sampleValues [PostResp.ok "42"] [some "tokN"]
       [GetUserResp.ok sampleUser] { sampleState with token := none }).2
     "tokN" [] rfl rfl⟩

/-- C10: when the submission error carries no HTTP response — a pure
network failure of the POST, or of the follow-up `GET /users/:id` — the
handler itself throws (it dereferences `error.response`): the call ends
`threw`, the only events are the request(s) themselves (no alert, no
retry), the state is unchanged except that the `finally` block still clears
the token. -/
theorem c10_missing_response_throws (values : CreateUser) (t : String)
    (uid : String) (pr : List PostResp) (tr : List (Option String))
    (gr : List GetUserResp) (s : CompState)
    (hs : s.token = some t) (ht : t ≠ "") :
    reqCreateUser values (PostResp.err AxiosErr.noResponse :: pr) tr gr s
      = ({ s with token := none },
         [Event.postUsers t (mkPayload values s)], ReqResult.threw) ∧
    reqCreateUser values (PostResp.ok uid :: pr) tr
        (GetUserResp.err AxiosErr.noResponse :: gr) s
      = ({ s with token := none },
         [Event.postUsers t (mkPayload values s), Event.getUserReq uid],
         ReqResult.threw) := by
  have htb : (t == "") = false := by simpa using ht
  have hacq : acquireToken tr s = some (t, s, [], tr) := by
    simp [acquireToken, falsyToken, hs, htb]
  have hhc : handleCatch AxiosErr.noResponse s
      = (CatchOut.done { s with token := none } ReqResult.threw, []) := by
    simp [handleCatch]
  constructor
  · rw [reqCreateUser, hacq]
    simp only [hhc]
    simp
  · rw [reqCreateUser, hacq]
    simp only [List.headD_cons, hhc]
    simp

/-- Witness for C10: a concrete POST network failure throws out of the
handler with the token cleared and the list untouched. -/
theorem c10_missing_response_throws_witness :
    sampleState.token = some "tok1" ∧
      reqCreateUser sampleValues [PostResp.err AxiosErr.noResponse] [] []
          sampleState
        = ({ sampleState with token := none },
           [Event.postUsers "tok1" (mkPayload sampleValues sampleState)],
           ReqResult.threw) :=
  ⟨rfl,
   (c10_missing_response_throws sampleValues "tok1" "42" [] [] [] sampleState
      rfl (by decide)).1⟩

/-- C7: for every sequence of successful page fetches starting from an
empty list, the displayed list is the concatenation of the pages' users in
fetch order; hence if the server reports accurate `count` fields
(`count = users.length` per page) the list length equals the sum of the
`count` fields, and if the pages are internally duplicate-free and pairwise
disjoint, the displayed list has no duplicates — no user appears from two
different pages. -/
theorem c7_length_sum_counts_nodup (pages : List GetUserResponse)
    (s : CompState) (h0 : s.users = [])
    (hcount : ∀ p ∈ pages, p.count = p.users.length)
    (hnodup : ∀ p ∈ pages, p.users.Nodup)
    (hdisj : (pages.map GetUserResponse.users).Pairwise List.Disjoint) :
    (runPageFetches (pages.map PageFetchOutcome.ok) s).1.users.length
        = (pages.map GetUserResponse.count).sum ∧
      (runPageFetches (pages.map PageFetchOutcome.ok) s).1.users.Nodup := by
  have husers := runPageFetches_ok_users pages s
  rw [husers, h0, List.nil_append]
  constructor
  · rw [List.length_flatten, List.map_map]
    congr 1
    apply List.map_congr_left
    intro p hp
    simp only [Function.comp_apply]
    exact (hcount p hp).symm
  · rw [List.nodup_flatten]
    refine ⟨?_, hdisj⟩
    intro l hl
    rcases List.mem_map.mp hl with ⟨p, hp, rfl⟩
    exact hnodup p hp

/-- Witness for C7: two concrete disjoint one-user pages give a list of
length `1 + 1` with no duplicates. -/
theorem c7_length_sum_counts_nodup_witness :
    sampleState.users = [] ∧
      (∀ p ∈ [samplePage1, samplePage2], p.count = p.users.length) ∧
      (∀ p ∈ [samplePage1, samplePage2], p.users.Nodup) ∧
      ([samplePage1, samplePage2].map GetUserResponse.users).Pairwise
        List.Disjoint ∧
      (runPageFetches ([samplePage1, samplePage2].map PageFetchOutcome.ok)
          sampleState).1.users.length
        = ([samplePage1, samplePage2].map GetUserResponse.count).sum := by
  have hdisj : ([samplePage1, samplePage2].map GetUserResponse.users).Pairwise
      List.Disjoint := by
    simp [samplePage1, samplePage2, List.Disjoint]
    decide
  refine ⟨rfl, by decide, by decide, hdisj, ?_⟩
  exact (c7_length_sum_counts_nodup [samplePage1, samplePage2] sampleState
    rfl (by decide) (by decide) hdisj).1
